import Mathlib

/-!
Verification development for `celophane`, a command-line client for querying
balances and exchange rates on the Celo blockchain.

The Rust sources (`src/celo.rs`, `src/main.rs`) are shallowly embedded below.
Remote JSON-RPC interaction is abstracted as an oracle (`Chain`) giving, for
each remote contract call, either a returned value or a remote error.  Every
embedded function returns its result together with a linearized log of the
events it performed (remote calls issued and lines printed); `tokio::join!`
of independent futures is linearized left-to-right, which is faithful for the
properties proved here (none depend on interleaving order of the calls).

Rust's three ways out of a function are distinguished by `Outcome`:
`ok` (normal return), `err` (an `anyhow::Result` `Err` value, produced by `?`
or explicit `Err`), and `panic` (an `unwrap()` on a failed result, aborting
the process).
-/

/-- Result of a Rust async function: normal return, `Err` result, or panic. -/
inductive Outcome (α : Type) where
  | ok : α → Outcome α
  | err : String → Outcome α
  | panic : String → Outcome α
deriving DecidableEq, Repr

/-- `true` iff the outcome is an `Err` result. -/
def Outcome.isErr {α : Type} : Outcome α → Bool
  | .err _ => true
  | _ => false

/-- `true` iff the outcome is a panic. -/
def Outcome.isPanic {α : Type} : Outcome α → Bool
  | .panic _ => true
  | _ => false

/-- `true` iff the outcome is a normal return. -/
def Outcome.isOk {α : Type} : Outcome α → Bool
  | .ok _ => true
  | _ => false

/-- Observable events of a run: remote contract calls issued and lines printed. -/
inductive Event where
  | registryCall : Nat → String → Event
  | balanceOfCall : Nat → Nat → Event
  | quoteCall : Nat → Nat → Bool → Event
  | printLine : String → Event
deriving DecidableEq, Repr

/-- The remote-node oracle: the outcome of each possible remote contract call.
`getAddressForString registry name` is the registry contract's
`getAddressForString` method, `balanceOf token account` an ERC20 `balanceOf`,
`getBuyTokenAmount exchange amount sellGold` the exchange quote method.
An `Except.error` models a failed remote call. Addresses are 20-byte
quantities modelled as `Nat`. -/
structure Chain where
  getAddressForString : Nat → String → Except String Nat
  balanceOf : Nat → Nat → Except String Nat
  getBuyTokenAmount : Nat → Nat → Bool → Except String Nat

/-! ## Constants of `src/celo.rs` -/

/-- `const REGISTRY_ADDRESS: &str = "000000000000000000000000000000000000ce10";` -/
def REGISTRY_ADDRESS : String := "000000000000000000000000000000000000ce10"

/-- `const EXCHANGE: &str = "Exchange";` -/
def EXCHANGE : String := "Exchange"

/-- `const GOLD_TOKEN: &str = "GoldToken";` -/
def GOLD_TOKEN : String := "GoldToken"

/-- `const STABLE_TOKEN: &str = "StableToken";` -/
def STABLE_TOKEN : String := "StableToken"

/-- `const STABLE_TOKEN_EUR: &str = "StableTokenEUR";` -/
def STABLE_TOKEN_EUR : String := "StableTokenEUR"

/-! ## Address parsing (external `ethers` library, deterministic) -/

/-- Value of a hex digit, `none` for a non-hex character. -/
def hexVal (c : Char) : Option Nat :=
  if '0' ≤ c ∧ c ≤ '9' then some (c.toNat - '0'.toNat)
  else if 'a' ≤ c ∧ c ≤ 'f' then some (c.toNat - 'a'.toNat + 10)
  else if 'A' ≤ c ∧ c ≤ 'F' then some (c.toNat - 'A'.toNat + 10)
  else none

/-- Big-endian hex accumulation over a character list. -/
def hexAccum (acc : Nat) : List Char → Option Nat
  | [] => some acc
  | c :: cs =>
    match hexVal c with
    | some v => hexAccum (16 * acc + v) cs
    | none => none

/-- Removes a leading `0x`, if present. -/
def stripHexMark : List Char → List Char
  | '0' :: 'x' :: rest => rest
  | l => l

/-- Modelled from the external `ethers` crate: `str::parse::<Address>()`
(`H160` from a hex string, with or without `0x` prefix): succeeds exactly on
40 hex digits, yielding the 20-byte quantity. -/
def parseAddress (s : String) : Except String Nat :=
  let t := stripHexMark s.data
  if t.length = 40 then
    match hexAccum 0 t with
    | some n => .ok n
    | none => .error "invalid hex character"
  else .error "invalid address length"

/-- The registry address constant parses to the 20-byte value `0xce10`. -/
def registryAddr : Nat := 52752

/-! ## `src/celo.rs` -/

/-- An `Erc20<M>` / `Exchange<M>` contract handle: an address plus the shared
client (the client is the ambient `Chain` oracle here). -/
structure ContractHandle where
  address : Nat
deriving DecidableEq, Repr

/--
`pub async fn registry_lookup<M>(client, name) -> Result<Address>`:
parses `REGISTRY_ADDRESS` (propagating a parse failure via `?` as `Err`),
constructs the registry handle, and issues `getAddressForString(name)`;
the remote call's result is `unwrap()`ed, so a remote error panics.
-/
def registry_lookup (chain : Chain) (name : String) : Outcome Nat × List Event :=
  match parseAddress REGISTRY_ADDRESS with
  | .error e => (.err e, [])
  | .ok registry_address =>
    match chain.getAddressForString registry_address name with
    | .ok a => (.ok a, [.registryCall registry_address name])
    | .error e => (.panic e, [.registryCall registry_address name])

/--
`async fn get_erc20_token<M>(client, name) -> Result<Erc20<M>>`:
`registry_lookup(client, name).await?`, then wraps the address in a handle.
-/
def get_erc20_token (chain : Chain) (name : String) : Outcome ContractHandle × List Event :=
  match registry_lookup chain name with
  | (.ok a, log) => (.ok ⟨a⟩, log)
  | (.err e, log) => (.err e, log)
  | (.panic e, log) => (.panic e, log)

/-- `pub async fn get_celo_token<M>(client) -> Result<Erc20<M>>`. -/
def get_celo_token (chain : Chain) : Outcome ContractHandle × List Event :=
  get_erc20_token chain GOLD_TOKEN

/-- `pub async fn get_cusd_token<M>(client) -> Result<Erc20<M>>`. -/
def get_cusd_token (chain : Chain) : Outcome ContractHandle × List Event :=
  get_erc20_token chain STABLE_TOKEN

/-- `pub async fn get_ceur_token<M>(client) -> Result<Erc20<M>>`. -/
def get_ceur_token (chain : Chain) : Outcome ContractHandle × List Event :=
  get_erc20_token chain STABLE_TOKEN_EUR

/--
`pub async fn get_exchange<M>(client) -> Result<Exchange<M>>`:
`registry_lookup(client, EXCHANGE).await.unwrap()` — an `Err` from
`registry_lookup` is turned into a panic by the `unwrap()`; a panic inside
`registry_lookup` propagates.
-/
def get_exchange (chain : Chain) : Outcome ContractHandle × List Event :=
  match registry_lookup chain EXCHANGE with
  | (.ok a, log) => (.ok ⟨a⟩, log)
  | (.err e, log) => (.panic e, log)
  | (.panic e, log) => (.panic e, log)


/-! ## `src/main.rs` -/

/-- Default of the `--endpoint` flag:
`#[structopt(long, default_value = "http://localhost:8545")] endpoint: Url`. -/
def ENDPOINT_DEFAULT : String := "http://localhost:8545"

/-- Default of the `exchange show --amount` flag, as the decimal string fed to
`U256::from_dec_str`: `default_value = "1000000000000000000"`. -/
def AMOUNT_DEFAULT_STR : String := "1000000000000000000"

/-- Value of a decimal digit, `none` for a non-digit character. -/
def decVal (c : Char) : Option Nat :=
  if '0' ≤ c ∧ c ≤ '9' then some (c.toNat - '0'.toNat) else none

/-- Big-endian decimal accumulation over a character list. -/
def decAccum (acc : Nat) : List Char → Option Nat
  | [] => some acc
  | c :: cs =>
    match decVal c with
    | some v => decAccum (10 * acc + v) cs
    | none => none

/-- Modelled from the external `ethers` crate: `U256::from_dec_str`, used by
the `--amount` flag parser; fails on an empty string, a non-digit character,
or a value not representable in 256 bits. -/
def from_dec_str (s : String) : Except String Nat :=
  match s.data with
  | [] => .error "empty string"
  | l =>
    match decAccum 0 l with
    | some n => if n < 2 ^ 256 then .ok n else .error "number too large"
    | none => .error "invalid character"

/-- The default `--amount` value as parsed at startup. -/
def amountDefault : Except String Nat := from_dec_str AMOUNT_DEFAULT_STR

/--
`fn print_balance(maybe_balance: Option<U256>, label: &str)`:
prints `label: balance` for `Some`, nothing for `None`.
-/
def print_balance (maybe_balance : Option Nat) (label : String) : List Event :=
  match maybe_balance with
  | some balance => [.printLine (label ++ ": " ++ toString balance)]
  | none => []

/--
`async fn get_balance<M, Fut>(token_future: Fut, address) -> Option<U256>`:
generic over the token future.  An `Err` token (commented in the source as the
never-observed case) yields `None`; on `Ok(token)` it issues
`token.balance_of(address)` and maps a failed call to `None`.  A panic of the
token future propagates (nothing in `get_balance` catches unwinding).
-/
def get_balance (token_future : Outcome ContractHandle × List Event) (chain : Chain)
    (address : Nat) : Outcome (Option Nat) × List Event :=
  match token_future with
  | (.panic e, log) => (.panic e, log)
  | (.err _, log) => (.ok none, log)
  | (.ok token, log) =>
    match chain.balanceOf token.address address with
    | .ok balance => (.ok (some balance), log ++ [.balanceOfCall token.address address])
    | .error _ => (.ok none, log ++ [.balanceOfCall token.address address])

/--
Body of `async fn account_balance<M>(client, args) -> Result<()>`, factored
over the three token futures it builds (`get_balance` is generic over its
future in the source, so the factoring is faithful): `join!` the three
`get_balance` calls (linearized left-to-right; a panic of any propagates),
then print the header line and the three `print_balance` lines, returning
`Ok(())`.
-/
def account_balance_with (tCelo tCusd tCeur : Outcome ContractHandle × List Event)
    (chain : Chain) (address : Nat) : Outcome Unit × List Event :=
  match get_balance tCelo chain address, get_balance tCusd chain address,
      get_balance tCeur chain address with
  | (.ok celo_balance, l1), (.ok cusd_balance, l2), (.ok ceur_balance, l3) =>
    (.ok (), l1 ++ l2 ++ l3
      ++ [.printLine "All balances expressed in units of 10^-18."]
      ++ print_balance celo_balance "CELO"
      ++ print_balance cusd_balance "cUSD"
      ++ print_balance ceur_balance "cEUR")
  | (.panic e, l1), (_, l2), (_, l3) => (.panic e, l1 ++ l2 ++ l3)
  | (_, l1), (.panic e, l2), (_, l3) => (.panic e, l1 ++ l2 ++ l3)
  | (_, l1), (_, l2), (.panic e, l3) => (.panic e, l1 ++ l2 ++ l3)
  | (.err e, l1), (_, l2), (_, l3) => (.err e, l1 ++ l2 ++ l3)
  | (_, l1), (.err e, l2), (_, l3) => (.err e, l1 ++ l2 ++ l3)
  | (_, l1), (_, l2), (.err e, l3) => (.err e, l1 ++ l2 ++ l3)

/-- `async fn account_balance<M>(client, args) -> Result<()>` proper: the three
futures are `get_celo_token`, `get_cusd_token`, `get_ceur_token`. -/
def account_balance (chain : Chain) (address : Nat) : Outcome Unit × List Event :=
  account_balance_with (get_celo_token chain) (get_cusd_token chain) (get_ceur_token chain)
    chain address

/--
`async fn exchange_show<M>(client, args) -> Result<()>`:
`get_exchange(client).await?`, then `join!` of the two
`get_buy_token_amount(base_qty, sell_gold)` quote calls (both issued), then
two `println!` lines each `unwrap()`ing its quote — a failed quote panics
before its line (and, for the first line, before the second line) is printed.
-/
def exchange_show (chain : Chain) (amount : Nat) : Outcome Unit × List Event :=
  match get_exchange chain with
  | (.err e, log) => (.err e, log)
  | (.panic e, log) => (.panic e, log)
  | (.ok exchange, log) =>
    let base_qty := amount
    let cusd_quote_qty := chain.getBuyTokenAmount exchange.address base_qty true
    let celo_quote_qty := chain.getBuyTokenAmount exchange.address base_qty false
    let log := log ++ [.quoteCall exchange.address base_qty true,
                       .quoteCall exchange.address base_qty false]
    match cusd_quote_qty with
    | .error e => (.panic e, log)
    | .ok q1 =>
      let log := log ++ [.printLine (toString base_qty ++ " CELO => " ++ toString q1 ++ " cUSD")]
      match celo_quote_qty with
      | .error e => (.panic e, log)
      | .ok q2 =>
        (.ok (), log ++ [.printLine (toString base_qty ++ " cUSD => " ++ toString q2 ++ " CELO")])

/-! ## Provider selection -/

/-- `enum EitherProvider { Http(Provider<Http>), Ws(Provider<Ws>) }`, the
provider carrying the endpoint it was built from. -/
inductive EitherProvider where
  | http : String → EitherProvider
  | ws : String → EitherProvider
deriving DecidableEq, Repr

/-- Construction events of `create_provider`: building the HTTP transport
(no network traffic) and opening the WebSocket connection (network traffic). -/
inductive NetEvent where
  | httpConstruct : String → NetEvent
  | wsConnect : String → NetEvent
deriving DecidableEq, Repr

/-- Oracle for the two fallible external constructors used by
`create_provider`: `Provider::<Http>::try_from(url)` (local URL validation)
and `Provider::<Ws>::connect(url)` (performs the network handshake). -/
structure Net where
  httpTryFrom : String → Except String Unit
  wsConnect : String → Except String Unit

/--
`async fn create_provider(url: &Url) -> Result<EitherProvider>`:
dispatches on `url.scheme()` — `"https" | "http"` builds the HTTP provider,
`"wss" | "ws"` connects the WebSocket provider, and any other scheme returns
`Err(anyhow!("Unknown URL scheme \"{}\"", scheme))` without touching either
constructor.
-/
def create_provider (net : Net) (scheme urlStr : String) :
    Except String EitherProvider × List NetEvent :=
  if scheme = "https" ∨ scheme = "http" then
    match net.httpTryFrom urlStr with
    | .ok _ => (.ok (.http urlStr), [.httpConstruct urlStr])
    | .error e => (.error e, [.httpConstruct urlStr])
  else if scheme = "wss" ∨ scheme = "ws" then
    match net.wsConnect urlStr with
    | .ok _ => (.ok (.ws urlStr), [.wsConnect urlStr])
    | .error e => (.error e, [.wsConnect urlStr])
  else
    (.error ("Unknown URL scheme \"" ++ scheme ++ "\""), [])

/-! ## Derived views used by several claims -/

/-- The `Option` view of a remote call result, as `get_balance` computes it. -/
def exceptToOption (r : Except String Nat) : Option Nat :=
  match r with
  | .ok n => some n
  | .error _ => none

/-- The balance `get_balance` yields for a given token-future result. -/
def tokenBalance (t : Outcome ContractHandle) (chain : Chain) (address : Nat) : Option Nat :=
  match t with
  | .ok token => exceptToOption (chain.balanceOf token.address address)
  | _ => none

/-- The `balanceOf` call event `get_balance` issues for a given token-future
result (none when the future did not yield a token). -/
def balanceCallLog (t : Outcome ContractHandle) (address : Nat) : List Event :=
  match t with
  | .ok token => [.balanceOfCall token.address address]
  | _ => []

/-- `true` iff the event is a printed line. -/
def isPrintEvent : Event → Bool
  | .printLine _ => true
  | _ => false

/-- `true` iff every registry call in the log is issued against `r`. -/
def usesOnlyRegistry (r : Nat) (log : List Event) : Bool :=
  log.all fun e =>
    match e with
    | .registryCall r0 _ => r0 == r
    | _ => true

/-! ## Concrete remote-node oracles used as test inputs -/

/-- A node on which every remote call succeeds. -/
def allOkChain : Chain where
  getAddressForString := fun _ n =>
    .ok (if n = "Exchange" then 900 else if n = "GoldToken" then 901
         else if n = "StableToken" then 902 else 903)
  balanceOf := fun t a => .ok (t - 900 + a)
  getBuyTokenAmount := fun _ amt b => .ok (if b then amt + 1 else amt + 2)

/-- A node on which every remote call errors. -/
def errChain : Chain where
  getAddressForString := fun _ _ => .error "remote unreachable"
  balanceOf := fun _ _ => .error "remote unreachable"
  getBuyTokenAmount := fun _ _ _ => .error "remote unreachable"

/-- A node on which registry lookups succeed but the StableToken (cUSD)
balance call reverts. -/
def mixedChain : Chain where
  getAddressForString := fun _ n =>
    .ok (if n = "GoldToken" then 901 else if n = "StableToken" then 902
         else if n = "StableTokenEUR" then 903 else 900)
  balanceOf := fun t a => if t = 902 then .error "execution reverted" else .ok (t - 900 + a)
  getBuyTokenAmount := fun _ _ _ => .ok 0

/-- A node on which the `sellGold = true` quote fails while the
`sellGold = false` quote succeeds. -/
def quoteFailChain : Chain where
  getAddressForString := fun _ _ => .ok 900
  balanceOf := fun _ _ => .ok 0
  getBuyTokenAmount := fun _ _ b => if b then .error "quote failed" else .ok 5

/-- Provider-constructor oracle on which both constructors succeed. -/
def okNet : Net where
  httpTryFrom := fun _ => .ok ()
  wsConnect := fun _ => .ok ()

/-! ## Log bookkeeping helpers -/

/-- `true` iff the log contains no printed line. -/
def noPrints (log : List Event) : Bool :=
  log.all fun e => !(isPrintEvent e)

/-! ## Characterization lemmas -/

lemma parseAddress_registry : parseAddress REGISTRY_ADDRESS = .ok registryAddr := rfl

lemma registry_lookup_eq (chain : Chain) (name : String) :
    registry_lookup chain name =
      match chain.getAddressForString registryAddr name with
      | .ok a => (Outcome.ok a, [Event.registryCall registryAddr name])
      | .error e => (Outcome.panic e, [Event.registryCall registryAddr name]) := rfl

lemma get_erc20_token_eq (chain : Chain) (name : String) :
    get_erc20_token chain name =
      match chain.getAddressForString registryAddr name with
      | .ok a => (Outcome.ok ⟨a⟩, [Event.registryCall registryAddr name])
      | .error e => (Outcome.panic e, [Event.registryCall registryAddr name]) := by
  unfold get_erc20_token
  rw [registry_lookup_eq]
  cases chain.getAddressForString registryAddr name <;> rfl

lemma get_exchange_eq (chain : Chain) :
    get_exchange chain =
      match chain.getAddressForString registryAddr EXCHANGE with
      | .ok a => (Outcome.ok ⟨a⟩, [Event.registryCall registryAddr EXCHANGE])
      | .error e => (Outcome.panic e, [Event.registryCall registryAddr EXCHANGE]) := by
  unfold get_exchange
  rw [registry_lookup_eq]
  cases chain.getAddressForString registryAddr EXCHANGE <;> rfl

lemma get_erc20_token_ok (chain : Chain) (name : String) (a : Nat)
    (h : chain.getAddressForString registryAddr name = .ok a) :
    get_erc20_token chain name = (Outcome.ok ⟨a⟩, [Event.registryCall registryAddr name]) := by
  rw [get_erc20_token_eq, h]

lemma get_erc20_token_error (chain : Chain) (name : String) (e : String)
    (h : chain.getAddressForString registryAddr name = .error e) :
    get_erc20_token chain name = (Outcome.panic e, [Event.registryCall registryAddr name]) := by
  rw [get_erc20_token_eq, h]

lemma get_balance_eq (t : Outcome ContractHandle × List Event) (chain : Chain) (address : Nat)
    (h : t.1.isPanic = false) :
    get_balance t chain address =
      (Outcome.ok (tokenBalance t.1 chain address), t.2 ++ balanceCallLog t.1 address) := by
  rcases t with ⟨r, log⟩
  cases r with
  | ok token =>
    simp only [get_balance, tokenBalance, balanceCallLog, exceptToOption]
    cases chain.balanceOf token.address address <;> rfl
  | err e => simp [get_balance, tokenBalance, balanceCallLog]
  | panic e => simp [Outcome.isPanic] at h

lemma get_balance_panic (e : String) (log : List Event) (chain : Chain) (address : Nat) :
    get_balance (Outcome.panic e, log) chain address = (Outcome.panic e, log) := rfl

lemma account_balance_with_eq (t1 t2 t3 : Outcome ContractHandle × List Event) (chain : Chain)
    (address : Nat) (h1 : t1.1.isPanic = false) (h2 : t2.1.isPanic = false)
    (h3 : t3.1.isPanic = false) :
    account_balance_with t1 t2 t3 chain address =
      (Outcome.ok (),
        (t1.2 ++ balanceCallLog t1.1 address) ++ (t2.2 ++ balanceCallLog t2.1 address)
          ++ (t3.2 ++ balanceCallLog t3.1 address)
          ++ [Event.printLine "All balances expressed in units of 10^-18."]
          ++ print_balance (tokenBalance t1.1 chain address) "CELO"
          ++ print_balance (tokenBalance t2.1 chain address) "cUSD"
          ++ print_balance (tokenBalance t3.1 chain address) "cEUR") := by
  unfold account_balance_with
  rw [get_balance_eq t1 chain address h1, get_balance_eq t2 chain address h2,
    get_balance_eq t3 chain address h3]

lemma exchange_show_eq (chain : Chain) (amount a : Nat)
    (h : chain.getAddressForString registryAddr EXCHANGE = .ok a) :
    exchange_show chain amount =
      match chain.getBuyTokenAmount a amount true, chain.getBuyTokenAmount a amount false with
      | .error e, _ =>
        (Outcome.panic e, [Event.registryCall registryAddr EXCHANGE,
          Event.quoteCall a amount true, Event.quoteCall a amount false])
      | .ok q1, .error e =>
        (Outcome.panic e, [Event.registryCall registryAddr EXCHANGE,
          Event.quoteCall a amount true, Event.quoteCall a amount false,
          Event.printLine (toString amount ++ " CELO => " ++ toString q1 ++ " cUSD")])
      | .ok q1, .ok q2 =>
        (Outcome.ok (), [Event.registryCall registryAddr EXCHANGE,
          Event.quoteCall a amount true, Event.quoteCall a amount false,
          Event.printLine (toString amount ++ " CELO => " ++ toString q1 ++ " cUSD"),
          Event.printLine (toString amount ++ " cUSD => " ++ toString q2 ++ " CELO")]) := by
  unfold exchange_show
  rw [get_exchange_eq, h]
  cases hq1 : chain.getBuyTokenAmount a amount true <;>
    cases hq2 : chain.getBuyTokenAmount a amount false <;>
      simp only [hq1, hq2] <;> rfl

lemma print_balance_all_print (o : Option Nat) (label : String) :
    (print_balance o label).all isPrintEvent = true := by
  cases o <;> rfl

lemma noPrints_append (l1 l2 : List Event) :
    noPrints (l1 ++ l2) = (noPrints l1 && noPrints l2) := by
  simp [noPrints, List.all_append]

lemma noPrints_balanceCallLog (t : Outcome ContractHandle) (address : Nat) :
    noPrints (balanceCallLog t address) = true := by
  cases t <;> rfl

lemma usesOnlyRegistry_append (r : Nat) (l1 l2 : List Event) :
    usesOnlyRegistry r (l1 ++ l2) = (usesOnlyRegistry r l1 && usesOnlyRegistry r l2) := by
  simp [usesOnlyRegistry, List.all_append]

lemma usesOnlyRegistry_of_all_print (r : Nat) (log : List Event)
    (h : log.all isPrintEvent = true) : usesOnlyRegistry r log = true := by
  induction log with
  | nil => rfl
  | cons e es ih =>
    simp only [List.all_cons, Bool.and_eq_true] at h
    have he := h.1
    have hes := ih h.2
    cases e with
    | printLine s => simpa [usesOnlyRegistry, List.all_cons] using hes
    | registryCall r0 n => simp [isPrintEvent] at he
    | balanceOfCall t a => simp [isPrintEvent] at he
    | quoteCall x y b => simp [isPrintEvent] at he

lemma registry_lookup_uses_registry (chain : Chain) (name : String) :
    usesOnlyRegistry registryAddr (registry_lookup chain name).2 = true := by
  rw [registry_lookup_eq]
  cases h : chain.getAddressForString registryAddr name <;> simp [usesOnlyRegistry]

lemma get_balance_token_uses_registry (chain : Chain) (name : String) (address : Nat) :
    usesOnlyRegistry registryAddr
      (get_balance (get_erc20_token chain name) chain address).2 = true := by
  cases h : chain.getAddressForString registryAddr name with
  | error e =>
    rw [get_erc20_token_error chain name e h, get_balance_panic]
    simp [usesOnlyRegistry]
  | ok a =>
    rw [get_erc20_token_ok chain name a h,
      get_balance_eq (Outcome.ok ⟨a⟩, [Event.registryCall registryAddr name]) chain address rfl]
    simp [usesOnlyRegistry, balanceCallLog]

lemma account_balance_with_snd (t1 t2 t3 : Outcome ContractHandle × List Event)
    (chain : Chain) (address : Nat) :
    ∃ rest : List Event,
      (account_balance_with t1 t2 t3 chain address).2 =
        (get_balance t1 chain address).2 ++ ((get_balance t2 chain address).2
          ++ ((get_balance t3 chain address).2 ++ rest)) ∧
      rest.all isPrintEvent = true := by
  rcases g1 : get_balance t1 chain address with ⟨r1, l1⟩
  rcases g2 : get_balance t2 chain address with ⟨r2, l2⟩
  rcases g3 : get_balance t3 chain address with ⟨r3, l3⟩
  unfold account_balance_with
  rw [g1, g2, g3]
  cases r1 <;> cases r2 <;> cases r3
  case ok.ok.ok oa ob oc =>
    exact ⟨[Event.printLine "All balances expressed in units of 10^-18."]
      ++ (print_balance oa "CELO" ++ (print_balance ob "cUSD" ++ print_balance oc "cEUR")),
      by simp, by simp [List.all_append, print_balance_all_print, isPrintEvent]⟩
  all_goals exact ⟨[], by simp, rfl⟩

/-! ## Claims -/

/-- C1 counterexample: on a node whose remote registry call errors,
`registry_lookup` terminates by panic (the `unwrap()` in its body), not by
returning an `Err` result as the claim states. -/
theorem c1_counterexample_remote_error_panics :
    (registry_lookup errChain "GoldToken").1 = Outcome.panic "remote unreachable" ∧
    (registry_lookup errChain "GoldToken").1.isErr = false ∧
    (registry_lookup errChain "GoldToken").1.isOk = false :=
  ⟨rfl, rfl, rfl⟩

/-- C1 (amended): for every contract name, `registry_lookup` either returns a
20-byte address or panics when the remote registry call errors; it never
returns an `Err` result on a remote-call error. -/
theorem c1_registry_lookup_addr_or_panic (chain : Chain) (name : String) :
    (∀ e, chain.getAddressForString registryAddr name = .error e →
      (registry_lookup chain name).1 = Outcome.panic e) ∧
    (∀ a, chain.getAddressForString registryAddr name = .ok a →
      (registry_lookup chain name).1 = Outcome.ok a) ∧
    (registry_lookup chain name).1.isErr = false := by
  refine ⟨fun e he => ?_, fun a ha => ?_, ?_⟩
  · rw [registry_lookup_eq, he]
  · rw [registry_lookup_eq, ha]
  · rw [registry_lookup_eq]
    cases h : chain.getAddressForString registryAddr name <;> rfl

/-- C1 (amended) at a concrete input: a failing registry node makes
`registry_lookup` panic, a successful one makes it return the address. -/
theorem c1_registry_lookup_addr_or_panic_witness :
    (registry_lookup errChain "StableToken").1 = Outcome.panic "remote unreachable" ∧
    (registry_lookup allOkChain "StableToken").1 = Outcome.ok 902 :=
  ⟨(c1_registry_lookup_addr_or_panic errChain "StableToken").1 "remote unreachable" rfl,
   (c1_registry_lookup_addr_or_panic allOkChain "StableToken").2.1 902 rfl⟩

/-- C10: `registry_lookup` never returns an `Err` value at its public
interface: its only `Err` path is parsing the hardcoded registry address
constant, which always succeeds (it parses to `registryAddr`), and a failure
of the remote `getAddressForString` call panics; so every run either returns
`Ok(address)` or panics, after issuing exactly one registry call. -/
theorem c10_registry_lookup_never_err :
    parseAddress REGISTRY_ADDRESS = Except.ok registryAddr ∧
    ∀ (chain : Chain) (name : String),
      ((registry_lookup chain name).1.isOk = true ∨
        (registry_lookup chain name).1.isPanic = true) ∧
      (registry_lookup chain name).2 = [Event.registryCall registryAddr name] ∧
      ∀ e, chain.getAddressForString registryAddr name = .error e →
        (registry_lookup chain name).1 = Outcome.panic e := by
  refine ⟨rfl, fun chain name => ⟨?_, ?_, fun e he => ?_⟩⟩
  · rw [registry_lookup_eq]
    cases h : chain.getAddressForString registryAddr name
    · exact Or.inr rfl
    · exact Or.inl rfl
  · rw [registry_lookup_eq]
    cases h : chain.getAddressForString registryAddr name <;> rfl
  · rw [registry_lookup_eq, he]

/-- C10 at a concrete input: on a failing registry node the lookup panics
(and is not an `Ok`), after one registry call against the fixed registry. -/
theorem c10_registry_lookup_never_err_witness :
    ((registry_lookup errChain "Exchange").1.isOk = true ∨
      (registry_lookup errChain "Exchange").1.isPanic = true) ∧
    (registry_lookup errChain "Exchange").2 = [Event.registryCall registryAddr "Exchange"] ∧
    (registry_lookup errChain "Exchange").1 = Outcome.panic "remote unreachable" :=
  ⟨(c10_registry_lookup_never_err.2 errChain "Exchange").1,
   (c10_registry_lookup_never_err.2 errChain "Exchange").2.1,
   (c10_registry_lookup_never_err.2 errChain "Exchange").2.2 "remote unreachable" rfl⟩

/-- C7: with the flags omitted, `--endpoint` defaults to the local HTTP node
`http://localhost:8545` and `exchange show --amount` defaults to the decimal
string `1000000000000000000`, which parses to `10^18` smallest units. -/
theorem c7_default_values :
    ENDPOINT_DEFAULT = "http://localhost:8545" ∧
    AMOUNT_DEFAULT_STR = "1000000000000000000" ∧
    amountDefault = Except.ok (10 ^ 18) ∧
    from_dec_str AMOUNT_DEFAULT_STR = Except.ok 1000000000000000000 :=
  ⟨rfl, rfl, rfl, rfl⟩

/-- C4: `create_provider` classifies the endpoint by URL scheme — `http` and
`https` yield the HTTP request-response transport, `ws` and `wss` the
WebSocket persistent-connection transport, and any other scheme fails with an
error naming that scheme while performing no construction or connection at
all (empty `NetEvent` log, so no network call is attempted). -/
theorem c4_create_provider_scheme_dispatch (net : Net) (scheme urlStr : String) :
    ((scheme = "http" ∨ scheme = "https") → net.httpTryFrom urlStr = .ok () →
      create_provider net scheme urlStr =
        (.ok (.http urlStr), [.httpConstruct urlStr])) ∧
    ((scheme = "ws" ∨ scheme = "wss") → net.wsConnect urlStr = .ok () →
      create_provider net scheme urlStr =
        (.ok (.ws urlStr), [.wsConnect urlStr])) ∧
    (scheme ≠ "http" → scheme ≠ "https" → scheme ≠ "ws" → scheme ≠ "wss" →
      create_provider net scheme urlStr =
        (.error ("Unknown URL scheme \"" ++ scheme ++ "\""), [])) := by
  refine ⟨fun hs hok => ?_, fun hs hok => ?_, fun h1 h2 h3 h4 => ?_⟩
  · unfold create_provider
    rw [if_pos hs.symm, hok]
  · unfold create_provider
    rw [if_neg (by rcases hs with h | h <;> subst h <;> simp), if_pos hs.symm, hok]
  · unfold create_provider
    rw [if_neg (by tauto), if_neg (by tauto)]

/-- C4 at concrete inputs: scheme `ftp` fails with the named-scheme error and
no network event; scheme `http` yields the HTTP transport. -/
theorem c4_create_provider_scheme_dispatch_witness :
    create_provider okNet "ftp" "ftp://localhost:8545" =
      (.error ("Unknown URL scheme \"" ++ "ftp" ++ "\""), []) ∧
    create_provider okNet "http" "http://localhost:8545" =
      (.ok (.http "http://localhost:8545"), [.httpConstruct "http://localhost:8545"]) :=
  ⟨(c4_create_provider_scheme_dispatch okNet "ftp" "ftp://localhost:8545").2.2
      (by decide) (by decide) (by decide) (by decide),
   (c4_create_provider_scheme_dispatch okNet "http" "http://localhost:8545").1
      (Or.inl rfl) rfl⟩

/-- C5: for every base amount, once the exchange handle is resolved (one
registry lookup for `"Exchange"`) and both quotes answer, `exchange show`
issues exactly two `getBuyTokenAmount` queries for that same amount, one per
direction (`sellGold` true and false), and prints both quote results. -/
theorem c5_exchange_show_two_quotes (chain : Chain) (amount a q1 q2 : Nat)
    (h : chain.getAddressForString registryAddr EXCHANGE = .ok a)
    (hq1 : chain.getBuyTokenAmount a amount true = .ok q1)
    (hq2 : chain.getBuyTokenAmount a amount false = .ok q2) :
    exchange_show chain amount =
      (Outcome.ok (), [Event.registryCall registryAddr EXCHANGE,
        Event.quoteCall a amount true, Event.quoteCall a amount false,
        Event.printLine (toString amount ++ " CELO => " ++ toString q1 ++ " cUSD"),
        Event.printLine (toString amount ++ " cUSD => " ++ toString q2 ++ " CELO")]) := by
  rw [exchange_show_eq chain amount a h, hq1, hq2]

/-- C5 at a concrete input: one resolution, two quote calls, two printed
quote lines. -/
theorem c5_exchange_show_two_quotes_witness :
    exchange_show allOkChain 10 =
      (Outcome.ok (), [Event.registryCall registryAddr EXCHANGE,
        Event.quoteCall 900 10 true, Event.quoteCall 900 10 false,
        Event.printLine "10 CELO => 11 cUSD",
        Event.printLine "10 cUSD => 12 CELO"]) :=
  c5_exchange_show_two_quotes allOkChain 10 900 11 12 rfl rfl rfl

/-- C6: for every account address, when the three token lookups and balance
calls answer, the balance command reports balances for exactly the three
tokens GoldToken (CELO), StableToken (cUSD) and StableTokenEUR (cEUR), with
the smallest-units (`10^-18`) header line. -/
theorem c6_balance_reports_three_tokens (chain : Chain) (address a1 a2 a3 b1 b2 b3 : Nat)
    (h1 : chain.getAddressForString registryAddr GOLD_TOKEN = .ok a1)
    (h2 : chain.getAddressForString registryAddr STABLE_TOKEN = .ok a2)
    (h3 : chain.getAddressForString registryAddr STABLE_TOKEN_EUR = .ok a3)
    (hb1 : chain.balanceOf a1 address = .ok b1)
    (hb2 : chain.balanceOf a2 address = .ok b2)
    (hb3 : chain.balanceOf a3 address = .ok b3) :
    account_balance chain address =
      (Outcome.ok (),
        [Event.registryCall registryAddr GOLD_TOKEN, Event.balanceOfCall a1 address,
         Event.registryCall registryAddr STABLE_TOKEN, Event.balanceOfCall a2 address,
         Event.registryCall registryAddr STABLE_TOKEN_EUR, Event.balanceOfCall a3 address,
         Event.printLine "All balances expressed in units of 10^-18.",
         Event.printLine ("CELO" ++ ": " ++ toString b1),
         Event.printLine ("cUSD" ++ ": " ++ toString b2),
         Event.printLine ("cEUR" ++ ": " ++ toString b3)]) := by
  unfold account_balance get_celo_token get_cusd_token get_ceur_token
  rw [get_erc20_token_ok chain GOLD_TOKEN a1 h1, get_erc20_token_ok chain STABLE_TOKEN a2 h2,
    get_erc20_token_ok chain STABLE_TOKEN_EUR a3 h3]
  rw [account_balance_with_eq (Outcome.ok ⟨a1⟩, [Event.registryCall registryAddr GOLD_TOKEN])
    (Outcome.ok ⟨a2⟩, [Event.registryCall registryAddr STABLE_TOKEN])
    (Outcome.ok ⟨a3⟩, [Event.registryCall registryAddr STABLE_TOKEN_EUR])
    chain address rfl rfl rfl]
  simp [tokenBalance, balanceCallLog, exceptToOption, print_balance, hb1, hb2, hb3]

/-- C6 at a concrete input: the three token lines, in smallest units. -/
theorem c6_balance_reports_three_tokens_witness :
    account_balance allOkChain 5 =
      (Outcome.ok (),
        [Event.registryCall registryAddr GOLD_TOKEN, Event.balanceOfCall 901 5,
         Event.registryCall registryAddr STABLE_TOKEN, Event.balanceOfCall 902 5,
         Event.registryCall registryAddr STABLE_TOKEN_EUR, Event.balanceOfCall 903 5,
         Event.printLine "All balances expressed in units of 10^-18.",
         Event.printLine "CELO: 6", Event.printLine "cUSD: 7",
         Event.printLine "cEUR: 8"]) :=
  c6_balance_reports_three_tokens allOkChain 5 901 902 903 6 7 8 rfl rfl rfl rfl rfl rfl

/-- C2: the balance command queries `balanceOf` on each resolved token and
prints only the successful results: a token whose lookup yields `Err` or
whose `balanceOf` call fails contributes no output line (no error is
surfaced), while the other tokens' lines are still printed. -/
theorem c2_balance_prints_only_successes :
    (∀ label, print_balance none label = []) ∧
    (∀ b label, print_balance (some b) label =
      [Event.printLine (label ++ ": " ++ toString b)]) ∧
    (∀ (t : List Event) (e : String) (chain : Chain) (address : Nat),
      get_balance (Outcome.err e, t) chain address = (Outcome.ok none, t)) ∧
    ∀ (chain : Chain) (address a1 a2 a3 : Nat),
      chain.getAddressForString registryAddr GOLD_TOKEN = .ok a1 →
      chain.getAddressForString registryAddr STABLE_TOKEN = .ok a2 →
      chain.getAddressForString registryAddr STABLE_TOKEN_EUR = .ok a3 →
      account_balance chain address =
        (Outcome.ok (),
          [Event.registryCall registryAddr GOLD_TOKEN, Event.balanceOfCall a1 address,
           Event.registryCall registryAddr STABLE_TOKEN, Event.balanceOfCall a2 address,
           Event.registryCall registryAddr STABLE_TOKEN_EUR, Event.balanceOfCall a3 address,
           Event.printLine "All balances expressed in units of 10^-18."]
          ++ print_balance (exceptToOption (chain.balanceOf a1 address)) "CELO"
          ++ print_balance (exceptToOption (chain.balanceOf a2 address)) "cUSD"
          ++ print_balance (exceptToOption (chain.balanceOf a3 address)) "cEUR") := by
  refine ⟨fun label => rfl, fun b label => rfl, fun t e chain address => rfl,
    fun chain address a1 a2 a3 h1 h2 h3 => ?_⟩
  unfold account_balance get_celo_token get_cusd_token get_ceur_token
  rw [get_erc20_token_ok chain GOLD_TOKEN a1 h1, get_erc20_token_ok chain STABLE_TOKEN a2 h2,
    get_erc20_token_ok chain STABLE_TOKEN_EUR a3 h3]
  rw [account_balance_with_eq (Outcome.ok ⟨a1⟩, [Event.registryCall registryAddr GOLD_TOKEN])
    (Outcome.ok ⟨a2⟩, [Event.registryCall registryAddr STABLE_TOKEN])
    (Outcome.ok ⟨a3⟩, [Event.registryCall registryAddr STABLE_TOKEN_EUR])
    chain address rfl rfl rfl]
  simp [tokenBalance, balanceCallLog]

/-- C2 at a concrete input: the cUSD `balanceOf` call fails, so the cUSD line
is omitted while the CELO and cEUR lines are still printed and no error is
surfaced. -/
theorem c2_balance_prints_only_successes_witness :
    account_balance mixedChain 5 =
      (Outcome.ok (),
        [Event.registryCall registryAddr GOLD_TOKEN, Event.balanceOfCall 901 5,
         Event.registryCall registryAddr STABLE_TOKEN, Event.balanceOfCall 902 5,
         Event.registryCall registryAddr STABLE_TOKEN_EUR, Event.balanceOfCall 903 5,
         Event.printLine "All balances expressed in units of 10^-18.",
         Event.printLine "CELO: 6", Event.printLine "cEUR: 8"]) := by
  have h := c2_balance_prints_only_successes.2.2.2 mixedChain 5 901 902 903 rfl rfl rfl
  exact h.trans rfl

/-- C9: for every address and every combination of token-future and
balance-call outcomes in which no join partner panics (outcomes `Ok` or
`Err`, in any mixture), `account_balance` returns `Ok(())` — it never
propagates an error — and the header line about units of `10^-18` is printed
before the per-token lines: every event before it is a remote call, every
event after it a printed token line. -/
theorem c9_account_balance_ok_and_header_first
    (t1 t2 t3 : Outcome ContractHandle × List Event) (chain : Chain) (address : Nat)
    (h1 : t1.1.isPanic = false) (h2 : t2.1.isPanic = false) (h3 : t3.1.isPanic = false)
    (p1 : noPrints t1.2 = true) (p2 : noPrints t2.2 = true) (p3 : noPrints t3.2 = true) :
    (account_balance_with t1 t2 t3 chain address).1 = Outcome.ok () ∧
    ∃ calls prints,
      (account_balance_with t1 t2 t3 chain address).2 =
        calls ++ Event.printLine "All balances expressed in units of 10^-18." :: prints ∧
      noPrints calls = true ∧ prints.all isPrintEvent = true := by
  rw [account_balance_with_eq t1 t2 t3 chain address h1 h2 h3]
  refine ⟨rfl,
    (t1.2 ++ balanceCallLog t1.1 address) ++ ((t2.2 ++ balanceCallLog t2.1 address)
      ++ (t3.2 ++ balanceCallLog t3.1 address)),
    print_balance (tokenBalance t1.1 chain address) "CELO"
      ++ (print_balance (tokenBalance t2.1 chain address) "cUSD"
        ++ print_balance (tokenBalance t3.1 chain address) "cEUR"),
    ?_, ?_, ?_⟩
  · simp [List.append_assoc]
  · simp [noPrints_append, p1, p2, p3, noPrints_balanceCallLog]
  · simp [List.all_append, print_balance_all_print]

/-- C9 at a concrete input: one token future is an `Err`, another token's
balance call fails, yet the handler returns `Ok(())` and prints the header
first. -/
theorem c9_account_balance_ok_and_header_first_witness :
    (account_balance_with (Outcome.err "no token", ([] : List Event))
      (Outcome.ok ⟨902⟩, ([] : List Event)) (Outcome.ok ⟨903⟩, ([] : List Event))
      mixedChain 5).1 = Outcome.ok () ∧
    ∃ calls prints,
      (account_balance_with (Outcome.err "no token", ([] : List Event))
        (Outcome.ok ⟨902⟩, ([] : List Event)) (Outcome.ok ⟨903⟩, ([] : List Event))
        mixedChain 5).2 =
        calls ++ Event.printLine "All balances expressed in units of 10^-18." :: prints ∧
      noPrints calls = true ∧ prints.all isPrintEvent = true :=
  c9_account_balance_ok_and_header_first _ _ _ mixedChain 5 rfl rfl rfl rfl rfl rfl

/-- C3 counterexample: in the exchange handler, when the first join partner
(the `sellGold = true` quote) fails, the run panics and no result line is
printed at all — in particular the other partner's successful result (`5`) is
not produced in the output, contrary to the claim. -/
theorem c3_counterexample_exchange_partner_result_lost :
    quoteFailChain.getBuyTokenAmount 900 10 false = .ok 5 ∧
    exchange_show quoteFailChain 10 =
      (Outcome.panic "quote failed",
        [Event.registryCall registryAddr EXCHANGE, Event.quoteCall 900 10 true,
         Event.quoteCall 900 10 false]) ∧
    noPrints (exchange_show quoteFailChain 10).2 = true :=
  ⟨rfl, rfl, rfl⟩

/-- C3 (amended): in the balance handler a failed join partner's line is
absent from the output while the other partners' lines are still printed; in
the exchange handler a failed quote is `unwrap()`ed and the run panics — when
the first quote fails nothing is printed at all, and when only the second
fails the first line is printed before the panic. -/
theorem c3_amended_join_failure_behavior :
    (∀ (t1 t2 t3 : Outcome ContractHandle × List Event) (chain : Chain) (address : Nat),
      t1.1.isPanic = false → t2.1.isPanic = false → t3.1.isPanic = false →
      account_balance_with t1 t2 t3 chain address =
        (Outcome.ok (),
          (t1.2 ++ balanceCallLog t1.1 address) ++ (t2.2 ++ balanceCallLog t2.1 address)
            ++ (t3.2 ++ balanceCallLog t3.1 address)
            ++ [Event.printLine "All balances expressed in units of 10^-18."]
            ++ print_balance (tokenBalance t1.1 chain address) "CELO"
            ++ print_balance (tokenBalance t2.1 chain address) "cUSD"
            ++ print_balance (tokenBalance t3.1 chain address) "cEUR")) ∧
    (∀ (e : String) (chain : Chain) (address : Nat),
      tokenBalance (Outcome.err e) chain address = none) ∧
    (∀ (chain : Chain) (amount a : Nat) (e : String),
      chain.getAddressForString registryAddr EXCHANGE = .ok a →
      chain.getBuyTokenAmount a amount true = .error e →
      exchange_show chain amount =
        (Outcome.panic e,
          [Event.registryCall registryAddr EXCHANGE, Event.quoteCall a amount true,
           Event.quoteCall a amount false])) ∧
    (∀ (chain : Chain) (amount a q1 : Nat) (e : String),
      chain.getAddressForString registryAddr EXCHANGE = .ok a →
      chain.getBuyTokenAmount a amount true = .ok q1 →
      chain.getBuyTokenAmount a amount false = .error e →
      exchange_show chain amount =
        (Outcome.panic e,
          [Event.registryCall registryAddr EXCHANGE, Event.quoteCall a amount true,
           Event.quoteCall a amount false,
           Event.printLine (toString amount ++ " CELO => " ++ toString q1 ++ " cUSD")])) := by
  refine ⟨fun t1 t2 t3 chain address h1 h2 h3 =>
      account_balance_with_eq t1 t2 t3 chain address h1 h2 h3,
    fun e chain address => rfl,
    fun chain amount a e h hq => ?_,
    fun chain amount a q1 e h hq1 hq2 => ?_⟩
  · rw [exchange_show_eq chain amount a h, hq]
  · rw [exchange_show_eq chain amount a h, hq1, hq2]

/-- C3 (amended) at concrete inputs: a balance run with one `Err` partner and
one failed balance call still prints the remaining line, and an exchange run
whose first quote fails panics with no printed line. -/
theorem c3_amended_join_failure_behavior_witness :
    account_balance_with (Outcome.err "no token", ([] : List Event))
        (Outcome.ok ⟨902⟩, ([] : List Event)) (Outcome.ok ⟨903⟩, ([] : List Event))
        mixedChain 7 =
      (Outcome.ok (),
        [Event.balanceOfCall 902 7, Event.balanceOfCall 903 7,
         Event.printLine "All balances expressed in units of 10^-18.",
         Event.printLine "cEUR: 10"]) ∧
    exchange_show quoteFailChain 3 =
      (Outcome.panic "quote failed",
        [Event.registryCall registryAddr EXCHANGE, Event.quoteCall 900 3 true,
         Event.quoteCall 900 3 false]) := by
  constructor
  · have h := c3_amended_join_failure_behavior.1 (Outcome.err "no token", ([] : List Event))
      (Outcome.ok ⟨902⟩, ([] : List Event)) (Outcome.ok ⟨903⟩, ([] : List Event))
      mixedChain 7 rfl rfl rfl
    exact h.trans rfl
  · exact c3_amended_join_failure_behavior.2.2.1 quoteFailChain 3 900 "quote failed" rfl rfl

/-- C8: every registry lookup — directly, and through the balance and
exchange commands — is issued against the single hardcoded registry address
constant, which parses to the well-known address `0xce10`; no other registry
address ever appears in an event log. -/
theorem c8_lookups_use_hardcoded_registry :
    parseAddress REGISTRY_ADDRESS = Except.ok registryAddr ∧
    registryAddr = 0xce10 ∧
    ∀ (chain : Chain) (address amount : Nat) (name : String),
      usesOnlyRegistry registryAddr (registry_lookup chain name).2 = true ∧
      usesOnlyRegistry registryAddr (account_balance chain address).2 = true ∧
      usesOnlyRegistry registryAddr (exchange_show chain amount).2 = true := by
  refine ⟨rfl, rfl, fun chain address amount name =>
    ⟨registry_lookup_uses_registry chain name, ?_, ?_⟩⟩
  · unfold account_balance get_celo_token get_cusd_token get_ceur_token
    obtain ⟨rest, heq, hall⟩ := account_balance_with_snd (get_erc20_token chain GOLD_TOKEN)
      (get_erc20_token chain STABLE_TOKEN) (get_erc20_token chain STABLE_TOKEN_EUR)
      chain address
    rw [heq]
    simp only [usesOnlyRegistry_append, Bool.and_eq_true]
    exact ⟨get_balance_token_uses_registry chain GOLD_TOKEN address,
      get_balance_token_uses_registry chain STABLE_TOKEN address,
      get_balance_token_uses_registry chain STABLE_TOKEN_EUR address,
      usesOnlyRegistry_of_all_print registryAddr rest hall⟩
  · cases h : chain.getAddressForString registryAddr EXCHANGE with
    | error e =>
      unfold exchange_show
      rw [get_exchange_eq, h]
      simp [usesOnlyRegistry]
    | ok a =>
      rw [exchange_show_eq chain amount a h]
      cases hq1 : chain.getBuyTokenAmount a amount true <;>
        cases hq2 : chain.getBuyTokenAmount a amount false <;>
          simp [usesOnlyRegistry]
